import Mathlib

/-
  Verification of the HiddenFileReader repository.

  This file gives a shallow embedding of the Python modules
  `src/filters.py`, `src/aggregator.py` and `src/tree_generator.py`
  and proves / refutes the specification claims about them.

  Modelling conventions:
  * A filesystem path is a list of segments (`List String`), as produced by
    `pathlib.Path(...).parts` for a relative path; `os.path.join` is modelled
    by `joinChars`, which interleaves `'/'` between the segments.  The scanned
    root is invoked with a relative path, so no leading separator appears.
  * Python `str` values are Lean `String`s; all operations on them are done on
    their character lists (`String.data`) with explicitly defined recursive
    helpers, mirroring `str.lower`, `str.startswith`, `str.endswith`,
    `in` (substring) and `==` for the ASCII inputs the program manipulates.
  * Bytes are `Nat` values (0..255); a file's on-disk content is a byte list
    (`os.path.getsize` is its length) and the result of Python's text-mode
    read (`utf-8`, `errors="ignore"`, universal newlines) is carried as a
    separate character-list field of the modelled file.
  * A file whose `readable` flag is false models a file for which `open`
    raises (for example a permission error).
-/

set_option maxRecDepth 100000

namespace HiddenFileReader

/-- ASCII lower-casing of one character; models Python `str.lower` on the
ASCII strings handled by the program. -/
def lowerChar (c : Char) : Char :=
  if 65 ≤ c.toNat ∧ c.toNat ≤ 90 then Char.ofNat (c.toNat + 32) else c

/-- Lower-case a character list (Python `str.lower`). -/
def pyLower (s : List Char) : List Char := s.map lowerChar

/-- Substring containment: Python `needle in hay` on strings,
as a Boolean on character lists. -/
def containsSeq {α : Type} [DecidableEq α] (needle hay : List α) : Bool :=
  decide (needle <:+: hay)

/-- Model of `os.path.join` over the path segments, as the character list of the joined
path string (segments separated by `'/'`). -/
def joinChars : List String → List Char
  | [] => []
  | [s] => s.data
  | s :: t :: rest => s.data ++ '/' :: joinChars (t :: rest)

/-- Default exclude patterns, from `src/filters.py` (`DEFAULT_EXCLUDE_PATTERNS`). -/
def DEFAULT_EXCLUDE_PATTERNS : List String :=
  ["/proc", "/sys", "/dev",
   "node_modules", ".git", "__pycache__", "venv", ".venv", ".cache",
   "build", "dist", "target"]

/-- Directory include patterns, from `get_include_patterns` in `src/filters.py`. -/
def include_dirs : List String :=
  ["dist", "build", "target", "out", "bin", "obj", "generated",
   ".next", ".nuxt", ".angular", ".expo",
   "logs", "log",
   "temp", "tmp", ".tmp",
   ".vscode", ".idea", ".vs",
   ".git", ".svn", ".hg",
   ".venv", "venv", "env", ".env", "__pycache__",
   ".github", ".gitlab", ".circleci",
   ".docker", "docker",
   "db", "database", "sqlite"]

/-- File include patterns, from `get_include_patterns` in `src/filters.py`. -/
def include_files : List String :=
  ["*.log", "*.log.*", "*.out",
   ".env", ".env.*", "*.env", "*.env.*", "*.ini", "*.toml", "*.conf",
   "*.theme", ".gitignore", ".gitconfig", ".editorconfig",
   "package-lock.json", "yarn.lock", "pnpm-lock.yaml", "composer.lock",
   "poetry.lock", "Cargo.lock",
   "*.pyc", "*.pyo", "*.pyd", "*.class", "*.o", "*.so", "*.dll", "*.exe",
   "*.dylib", "*.a",
   ".DS_Store", "Thumbs.db", "desktop.ini",
   "*.bak", "*.swp", "*.swo",
   "coverage/", ".coverage",
   ".bashrc", ".zshrc", ".profile", ".vimrc", ".eslintrc", ".prettierrc"]

/-- The fixed config-file pattern set used for the `--config` filter mode
(`src/aggregator.py`, line 100). -/
def configPatterns : List String :=
  [".env", ".env.*", "*.env", "*.env.*", "*.ini", "*.toml", "*.yaml",
   "*.yml", "*.json", "*.xml"]

/-- Embedding of `should_exclude_path` from `src/filters.py` (lines 142-159): a path is
excluded when some pattern occurs as a substring of the full path string, or
equals one of the path's segments. -/
def should_exclude_path (path : List String) (exclude_patterns : List String) : Bool :=
  exclude_patterns.any fun pat =>
    containsSeq pat.data (joinChars path) || path.any fun part => part == pat

/-- Embedding of `should_include_path` from `src/filters.py` (lines 162-172): some path
segment, lower-cased, is a member of the include-directory set. -/
def should_include_path (path : List String) (incl : List String) : Bool :=
  path.any fun part => incl.any fun d => pyLower part.data == d.data

/-- Embedding of `should_include_file` from `src/filters.py` (lines 175-196): the
lower-cased filename is matched against each pattern by exact equality, by
suffix when the pattern starts with `*.`, or by prefix when the pattern ends
with `/`. -/
def should_include_file (filename : String) (incl : List String) : Bool :=
  let filename_lower := pyLower filename.data
  incl.any fun pat =>
    (filename_lower == pyLower pat.data) ||
    (List.isPrefixOf ['*', '.'] pat.data &&
      List.isSuffixOf (pyLower (pat.data.drop 1)) filename_lower) ||
    (List.isSuffixOf ['/'] pat.data &&
      List.isPrefixOf (pyLower pat.data.dropLast) filename_lower)

/-- Embedding of `is_hidden_file_or_dir` from `src/filters.py` (lines 199-208): some path
segment starts with a dot. -/
def is_hidden_file_or_dir (path : List String) : Bool :=
  path.any fun part => List.isPrefixOf ['.'] part.data

example : should_include_file ".env" include_files = true := by decide
example : should_include_file "README.md" include_files = false := by decide
example : should_include_file "App.LOG" include_files = true := by decide
example : should_include_file "coverage-report" include_files = true := by decide
example : is_hidden_file_or_dir ["proj", ".git", "config"] = true := by decide
example : should_exclude_path ["proj", ".git"] DEFAULT_EXCLUDE_PATTERNS = true := by decide
example : should_exclude_path ["proj", ".env"] DEFAULT_EXCLUDE_PATTERNS = false := by decide
example : should_include_path ["proj", ".GIT"] include_dirs = true := by decide

/-- A regular file as the scanner sees it.  `content` is the byte sequence on
disk (so `os.path.getsize` is `content.length`); `text` is the string Python's
text-mode read (`utf-8`, `errors="ignore"`, universal newlines) produces for
it; `readable` is false when opening the file raises (e.g. permission error). -/
structure FSFile where
  name : String
  content : List Nat
  text : List Char
  readable : Bool
deriving DecidableEq

/-- A directory listing: a finite sequence of files and subdirectories. -/
inductive FSDir where
  | nil : FSDir
  | file (f : FSFile) (rest : FSDir) : FSDir
  | dir (name : String) (children : FSDir) (rest : FSDir) : FSDir
deriving DecidableEq

/-- The scanned root: either not a directory (missing path or plain file),
or a directory with its listing. -/
inductive RootFS where
  | missing : RootFS
  | dir (d : FSDir) : RootFS

/-- The byte values of the Python literal `b'\\x00'` on line 23 of
`src/aggregator.py`: backslash, `x`, `0`, `0` — the literal has a doubled
backslash in the source, so it denotes these four characters, not a NUL byte. -/
def backslashX00 : List Nat := [92, 120, 48, 48]

/-- The `text_chars` byte set of `is_binary_file` (`src/aggregator.py`,
line 26): `{7,8,9,10,12,13,27} | set(range(0x20, 0x100)) - {0x7f}`. -/
def text_chars : List Nat :=
  [7, 8, 9, 10, 12, 13, 27] ++ (List.range 256).filter fun b => decide (32 ≤ b ∧ b ≠ 127)

/-- Embedding of `is_binary_file` from `src/aggregator.py` (lines 14-30): reads the first
1024 bytes; reports binary if the (mis-escaped) literal `\x00` character
sequence occurs in the sample, otherwise binary when fewer than 70% of the
sampled bytes are in `text_chars` (an empty sample is not binary); any
exception while opening/reading makes the file count as binary. -/
def is_binary_file (f : FSFile) : Bool :=
  if !f.readable then true
  else
    let chunk := f.content.take 1024
    if containsSeq backslashX00 chunk then true
    else if chunk.isEmpty then false
    else decide (10 * (chunk.countP fun b => text_chars.contains b) < 7 * chunk.length)

/-- The scan configuration handed to `aggregate_hidden_files`
(`src/aggregator.py`, lines 33-35). -/
structure Config where
  excludePatterns : List String
  dryRun : Bool
  outputFormat : String
  maxFileSize : Nat
  fileFilter : String

/-- Constant `MAX_FILE_SIZE` from `src/constants.py`. -/
def MAX_FILE_SIZE : Nat := 100 * 1024 * 1024

/-- Which gate (if any) rejects a candidate file in the per-file loop of
`aggregate_hidden_files` (`src/aggregator.py`, lines 90-166). -/
inductive FileOutcome where
  | excluded : FileOutcome
  | filteredOut : FileOutcome
  | notRelevant : FileOutcome
  | skippedLarge : FileOutcome
  | skippedBinary : FileOutcome
  | processed : FileOutcome
  | errorRead : FileOutcome
deriving DecidableEq

/-- The per-file decision chain of `aggregate_hidden_files`
(`src/aggregator.py`, lines 90-140), in source order: exclude check (line 95),
filter-mode check (lines 102-105), relevance check (line 109), size check
(line 114), binary check (line 123), then the text-mode open — `errorRead`
models that open raising (the `except` branch, lines 157-166). -/
def processFile (cfg : Config) (file_path : List String) (f : FSFile) : FileOutcome :=
  if should_exclude_path file_path cfg.excludePatterns then .excluded
  else
    let is_dotfile := is_hidden_file_or_dir file_path
    let is_config_file := should_include_file f.name configPatterns
    if (cfg.fileFilter == "dotfiles") && !is_dotfile then .filteredOut
    else if (cfg.fileFilter == "config") && !is_config_file then .filteredOut
    else if !(should_include_file f.name include_files || is_hidden_file_or_dir file_path) then
      .notRelevant
    else if f.content.length > cfg.maxFileSize then .skippedLarge
    else if is_binary_file f then .skippedBinary
    else if f.readable then .processed
    else .errorRead

/-- The accumulated scan result: the recorded (relative path, content)
entries (`file_contents` / the per-file sections of `content_lines`) and the
three counters of `aggregate_hidden_files`. -/
structure ScanState where
  entries : List (List String × List Char)
  fileCount : Nat
  totalSize : Nat
  totalLines : Nat
deriving DecidableEq

/-- The state at the start of the walk (`src/aggregator.py`, lines 69-72). -/
def emptyState : ScanState := ⟨[], 0, 0, 0⟩

/-- Number of lines Python's `sum(1 for _ in f)` yields when iterating a text
file whose decoded content is `t` (dry-run branch, line 134 of
`src/aggregator.py`). -/
def pyIterLineCount (t : List Char) : Nat :=
  t.count '\n' + (if t ≠ [] ∧ t.getLast? ≠ some '\n' then 1 else 0)

/-- Embedding of `file_content.count('\\n')` from line 155 of `src/aggregator.py`: the
Python literal has a doubled backslash, so this counts occurrences of the
two-character sequence backslash-`n`, not newline characters. -/
def countLiteralBackslashN : List Char → Nat
  | '\\' :: 'n' :: rest => countLiteralBackslashN rest + 1
  | _ :: rest => countLiteralBackslashN rest
  | [] => 0

/-- Placeholder text recorded by the `except` branch
(`# Error reading file: ...`, lines 160-166 of `src/aggregator.py`). -/
def errorEntryText : List Char := "# Error reading file".data

/-- One iteration of the per-file loop (`src/aggregator.py`, lines 90-166):
a file passing all gates is recorded (unless dry-run) and the counters are
updated; a read error records a placeholder entry; every other outcome
leaves the state unchanged. -/
def stepFile (cfg : Config) (rootSegs rel : List String) (f : FSFile)
    (st : ScanState) : ScanState :=
  match processFile cfg (rootSegs ++ rel ++ [f.name]) f with
  | .processed =>
      if cfg.dryRun then
        { st with
            fileCount := st.fileCount + 1
            totalSize := st.totalSize + f.content.length
            totalLines := st.totalLines + pyIterLineCount f.text }
      else
        { st with
            entries := st.entries ++ [(rel ++ [f.name], f.text)]
            fileCount := st.fileCount + 1
            totalSize := st.totalSize + f.text.length
            totalLines := st.totalLines + (countLiteralBackslashN f.text + 1) }
  | .errorRead =>
      if cfg.dryRun then st
      else { st with entries := st.entries ++ [(rel ++ [f.name], errorEntryText)] }
  | _ => st

/-- The `files` component of an `os.walk` triple: the regular files of one
directory listing, in listing order. -/
def dirFiles : FSDir → List FSFile
  | .nil => []
  | .file f rest => f :: dirFiles rest
  | .dir _ _ rest => dirFiles rest

/-- Folds `stepFile` over the files of the current directory
(the `for file in files` loop, line 90 of `src/aggregator.py`). -/
def processFiles (cfg : Config) (rootSegs rel : List String) :
    List FSFile → ScanState → ScanState
  | [], st => st
  | f :: fs, st => processFiles cfg rootSegs rel fs (stepFile cfg rootSegs rel f st)

/-- The recursive descent of `os.walk` after the two `dirs[:]` filters
(`src/aggregator.py`, lines 74-88): a subdirectory is pruned when
`should_exclude_path` holds, and descended into only when it matches an
include-directory pattern or is hidden; for each directory that is entered,
its files are processed before its own subdirectories. -/
def walkSubdirs (cfg : Config) (rootSegs : List String) :
    List String → FSDir → ScanState → ScanState
  | _, .nil, st => st
  | rel, .file _ rest, st => walkSubdirs cfg rootSegs rel rest st
  | rel, .dir n children rest, st =>
      let full := rootSegs ++ rel ++ [n]
      let st1 :=
        if should_exclude_path full cfg.excludePatterns then st
        else if should_include_path full include_dirs || is_hidden_file_or_dir full then
          walkSubdirs cfg rootSegs (rel ++ [n])
            children
            (processFiles cfg rootSegs (rel ++ [n]) (dirFiles children) st)
        else st
      walkSubdirs cfg rootSegs rel rest st1

/-- The whole `os.walk` loop of `aggregate_hidden_files` over the root
directory's listing: the root's own files first, then the filtered
subdirectories. -/
def scanDir (cfg : Config) (rootSegs : List String) (d : FSDir)
    (st : ScanState) : ScanState :=
  walkSubdirs cfg rootSegs [] d (processFiles cfg rootSegs [] (dirFiles d) st)

/-- The result of one `aggregate_hidden_files` call: the returned Boolean,
whether the `not_found` message was printed, the path of the artifact that
was written (if any), and the accumulated scan state. -/
structure AggResult where
  success : Bool
  reportedNotFound : Bool
  output : Option (List String)
  state : ScanState

/-- File extension chosen by the output dispatch
(`src/aggregator.py`, lines 179-188). -/
def outputExt (fmt : String) : String :=
  if fmt == "json" then "json"
  else if fmt == "sqlite" then "db"
  else if fmt == "md" then "md"
  else "txt"

/-- Embedding of `aggregate_hidden_files` from `src/aggregator.py` (lines 33-202): abort
with a report when the root is not a directory; otherwise walk the tree and,
unless dry-run, write one artifact `hidden_dump.<ext>` beside the root. -/
def aggregate_hidden_files (rootSegs : List String) (cfg : Config)
    (root : RootFS) : AggResult :=
  match root with
  | .missing => ⟨false, true, none, emptyState⟩
  | .dir d =>
      let st := scanDir cfg rootSegs d emptyState
      if cfg.dryRun then ⟨true, false, none, st⟩
      else ⟨true, false, some (rootSegs ++ ["hidden_dump." ++ outputExt cfg.outputFormat]), st⟩

/-- The files of one directory listing that the tree renderer keeps
(`src/tree_generator.py`, lines 42-46): a file is rendered when
`should_include_file` matches its bare name or the bare name itself is
hidden.  Returns their rendered paths relative to the root. -/
def treeFileEntries (rel : List String) : FSDir → List (List String)
  | .nil => []
  | .file f rest =>
      (if should_include_file f.name include_files || is_hidden_file_or_dir [f.name] then
        [rel ++ [f.name]]
      else []) ++ treeFileEntries rel rest
  | .dir _ _ rest => treeFileEntries rel rest

/-- The directory entries the tree renderer keeps and recurses into
(`src/tree_generator.py`, lines 33-57): a subdirectory is rendered and
descended into when `should_include_path` matches its full path or the full
path is hidden; no exclude check is performed.  For each kept directory its
subtree is rendered (subdirectories first, then files), mirroring
`add_directory_content`. -/
def treeDirEntries (rootSegs : List String) : List String → FSDir → List (List String)
  | _, .nil => []
  | rel, .file _ rest => treeDirEntries rootSegs rel rest
  | rel, .dir n children rest =>
      (if should_include_path (rootSegs ++ rel ++ [n]) include_dirs ||
          is_hidden_file_or_dir (rootSegs ++ rel ++ [n]) then
        (rel ++ [n]) ::
          (treeDirEntries rootSegs (rel ++ [n]) children ++
            treeFileEntries (rel ++ [n]) children)
      else []) ++ treeDirEntries rootSegs rel rest

/-- The set of entries (as root-relative paths) rendered by
`generate_hidden_directory_tree` (`src/tree_generator.py`): the kept
subdirectories with their subtrees, then the kept files of the root listing.
The box-drawing presentation, the alphabetical ordering of siblings and the
`[Permission Denied]` placeholder are presentation details not carried by
this model (the claims about the tree concern which entries appear). -/
def generate_hidden_directory_tree (rootSegs : List String) (d : FSDir) :
    List (List String) :=
  treeDirEntries rootSegs [] d ++ treeFileEntries [] d

/-- Default configuration: default excludes, normal (non-dry) run, `txt`
output, default size limit, `all` filter. -/
def defaultCfg : Config := ⟨DEFAULT_EXCLUDE_PATTERNS, false, "txt", MAX_FILE_SIZE, "all"⟩

/-- A small hidden text file with content `a`-newline-`b`. -/
def envFile : FSFile := ⟨".env", [97, 10, 98], ['a', '\n', 'b'], true⟩

/-- A root listing holding only `envFile`. -/
def fsEnvOnly : FSDir := .file envFile .nil

example :
    (aggregate_hidden_files ["proj"] defaultCfg (.dir fsEnvOnly)).state.entries =
      [([".env"], ['a', '\n', 'b'])] := by decide

example :
    (aggregate_hidden_files ["proj"] defaultCfg (.dir fsEnvOnly)).state.totalLines = 1 := by
  decide

/-- A file that is not readable is always classified binary, so a file that
survives the binary gate is readable. -/
theorem is_binary_file_eq_false_readable {f : FSFile} (h : is_binary_file f = false) :
    f.readable = true := by
  cases hr : f.readable with
  | true => rfl
  | false => simp [is_binary_file, hr] at h

/-- The `errorRead` outcome is unreachable: a file whose open raises is
already caught by the binary gate (`is_binary_file` returns `True` on any
exception), so the text-mode read is only attempted on readable files. -/
theorem processFile_ne_errorRead (cfg : Config) (fp : List String) (f : FSFile) :
    processFile cfg fp f ≠ FileOutcome.errorRead := by
  unfold processFile
  repeat' split
  all_goals simp_all [is_binary_file]
  all_goals repeat' split
  all_goals simp_all

/-- Provenance of a recorded entry: it is the relative path and text of a
file on which every gate passed. -/
def goodEntry (cfg : Config) (rootSegs : List String)
    (e : List String × List Char) : Prop :=
  ∃ rel f, e = (rel ++ [f.name], f.text) ∧
    processFile cfg (rootSegs ++ rel ++ [f.name]) f = FileOutcome.processed

/-- Any entry present after one `stepFile` was already present or comes from
a file that passed all gates. -/
theorem mem_stepFile_entries (cfg : Config) (rootSegs rel : List String)
    (f : FSFile) (st : ScanState) (e : List String × List Char)
    (h : e ∈ (stepFile cfg rootSegs rel f st).entries) :
    e ∈ st.entries ∨ goodEntry cfg rootSegs e := by
  unfold stepFile at h
  cases hpf : processFile cfg (rootSegs ++ rel ++ [f.name]) f
  case excluded => rw [hpf] at h; exact Or.inl h
  case filteredOut => rw [hpf] at h; exact Or.inl h
  case notRelevant => rw [hpf] at h; exact Or.inl h
  case skippedLarge => rw [hpf] at h; exact Or.inl h
  case skippedBinary => rw [hpf] at h; exact Or.inl h
  case errorRead => exact absurd hpf (processFile_ne_errorRead cfg _ f)
  case processed =>
    rw [hpf] at h
    cases hdry : cfg.dryRun with
    | true => simp [hdry] at h; exact Or.inl h
    | false =>
      simp only [hdry, Bool.false_eq_true, if_false, List.mem_append] at h
      rcases h with h | h
      · exact Or.inl h
      · rw [List.mem_singleton] at h
        exact Or.inr ⟨rel, f, h, hpf⟩

/-- Any entry present after processing a directory's files was already
present or comes from a file that passed all gates. -/
theorem mem_processFiles_entries (cfg : Config) (rootSegs rel : List String) :
    ∀ (fs : List FSFile) (st : ScanState) (e : List String × List Char),
      e ∈ (processFiles cfg rootSegs rel fs st).entries →
      e ∈ st.entries ∨ goodEntry cfg rootSegs e := by
  intro fs
  induction fs with
  | nil => intro st e h; exact Or.inl h
  | cons f fs ih =>
    intro st e h
    rcases ih _ e h with h' | h'
    · exact mem_stepFile_entries cfg rootSegs rel f st e h'
    · exact Or.inr h'

/-- Any entry present after the recursive walk was already present or comes
from a file that passed all gates. -/
theorem mem_walkSubdirs_entries (cfg : Config) (rootSegs : List String) :
    ∀ (d : FSDir) (rel : List String) (st : ScanState) (e : List String × List Char),
      e ∈ (walkSubdirs cfg rootSegs rel d st).entries →
      e ∈ st.entries ∨ goodEntry cfg rootSegs e := by
  intro d
  induction d with
  | nil => intro rel st e h; exact Or.inl h
  | file f rest ih => intro rel st e h; exact ih rel st e h
  | dir n children rest ihc ihr =>
    intro rel st e h
    simp only [walkSubdirs] at h
    rcases ihr rel _ e h with h' | h'
    · split at h'
      · exact Or.inl h'
      · split at h'
        · rcases ihc (rel ++ [n]) _ e h' with h'' | h''
          · exact mem_processFiles_entries cfg rootSegs (rel ++ [n]) _ st e h''
          · exact Or.inr h''
        · exact Or.inl h'
    · exact Or.inr h'

/-- The state returned by `aggregate_hidden_files` on a directory root is the
state of the walk, in every mode. -/
theorem aggregate_state (rootSegs : List String) (cfg : Config) (d : FSDir) :
    (aggregate_hidden_files rootSegs cfg (RootFS.dir d)).state =
      scanDir cfg rootSegs d emptyState := by
  simp only [aggregate_hidden_files]
  split <;> rfl

/-- Every entry of a completed scan comes from a file that passed all gates. -/
theorem mem_scan_entries (cfg : Config) (rootSegs : List String) (d : FSDir)
    (e : List String × List Char)
    (h : e ∈ (aggregate_hidden_files rootSegs cfg (RootFS.dir d)).state.entries) :
    goodEntry cfg rootSegs e := by
  rw [aggregate_state] at h
  unfold scanDir at h
  rcases mem_walkSubdirs_entries cfg rootSegs d [] _ e h with h' | h'
  · rcases mem_processFiles_entries cfg rootSegs [] _ _ e h' with h'' | h''
    · simp [emptyState] at h''
    · exact h''
  · exact h'

/-- A file that passed all gates passed the exclude gate. -/
theorem processed_excluded_false {cfg : Config} {fp : List String} {f : FSFile}
    (h : processFile cfg fp f = FileOutcome.processed) :
    should_exclude_path fp cfg.excludePatterns = false := by
  cases hex : should_exclude_path fp cfg.excludePatterns with
  | false => rfl
  | true => simp [processFile, hex] at h

/-- Under filter mode `dotfiles`, a file that passed all gates is hidden. -/
theorem processed_dotfiles_hidden {cfg : Config} {fp : List String} {f : FSFile}
    (h : processFile cfg fp f = FileOutcome.processed)
    (hf : cfg.fileFilter = "dotfiles") : is_hidden_file_or_dir fp = true := by
  cases hh : is_hidden_file_or_dir fp with
  | true => rfl
  | false =>
    exfalso
    cases hex : should_exclude_path fp cfg.excludePatterns with
    | true => simp [processFile, hex] at h
    | false => simp [processFile, hex, hf, hh] at h

/-- Under filter mode `config`, a file that passed all gates matches the
fixed config-pattern set. -/
theorem processed_config_match {cfg : Config} {fp : List String} {f : FSFile}
    (h : processFile cfg fp f = FileOutcome.processed)
    (hf : cfg.fileFilter = "config") :
    should_include_file f.name configPatterns = true := by
  cases hc : should_include_file f.name configPatterns with
  | true => rfl
  | false =>
    exfalso
    cases hex : should_exclude_path fp cfg.excludePatterns with
    | true => simp [processFile, hex] at h
    | false => simp [processFile, hex, hf, hc] at h

/-- Joining a concatenation of two non-empty segment lists inserts one
separator between the two joined halves. -/
theorem joinChars_append (p q : List String) (hp : p ≠ []) (hq : q ≠ []) :
    joinChars (p ++ q) = joinChars p ++ '/' :: joinChars q := by
  induction p with
  | nil => exact absurd rfl hp
  | cons s p ih =>
    cases p with
    | nil =>
      cases q with
      | nil => exact absurd rfl hq
      | cons t q => rfl
    | cons u p' =>
      show s.data ++ '/' :: joinChars ((u :: p') ++ q) =
          (s.data ++ '/' :: joinChars (u :: p')) ++ '/' :: joinChars q
      rw [ih (by simp)]
      simp

/-- Joining path segments is monotone: a segment-list prefix joins to a
character-list prefix. -/
theorem joinChars_mono {p q : List String} (h : p <+: q) :
    joinChars p <+: joinChars q := by
  obtain ⟨r, rfl⟩ := h
  rcases p with _ | ⟨s, p'⟩
  · exact List.nil_prefix
  rcases r with _ | ⟨t, r'⟩
  · rw [List.append_nil]
  · rw [joinChars_append (s :: p') (t :: r') (by simp) (by simp)]
    exact ⟨'/' :: joinChars (t :: r'), rfl⟩

/-- Exclusion is monotone under path extension: if a path is not excluded,
neither is any of its prefixes — equivalently, a path below an excluded
directory is itself excluded. -/
theorem should_exclude_path_mono {p q : List String} {pats : List String}
    (hpq : p <+: q) (h : should_exclude_path q pats = false) :
    should_exclude_path p pats = false := by
  cases hs : should_exclude_path p pats with
  | false => rfl
  | true =>
    exfalso
    rw [should_exclude_path, List.any_eq_true] at hs
    obtain ⟨pat, hmem, hpat⟩ := hs
    rw [Bool.or_eq_true] at hpat
    have hq : should_exclude_path q pats = true := by
      rw [should_exclude_path, List.any_eq_true]
      refine ⟨pat, hmem, ?_⟩
      rw [Bool.or_eq_true]
      rcases hpat with hsub | hpart
      · left
        rw [containsSeq, decide_eq_true_eq] at hsub ⊢
        exact hsub.trans (joinChars_mono hpq).isInfix
      · right
        rw [List.any_eq_true] at hpart ⊢
        obtain ⟨part, hpm, hpe⟩ := hpart
        exact ⟨part, hpq.subset hpm, hpe⟩
    rw [hq] at h
    exact Bool.noConfusion h

/-- C4: for every directory whose path matches an exclude pattern (by
substring of the joined path or by equality with a segment), no file beneath
it is ever recorded: every recorded entry's full path, and every prefix of
that full path (in particular every ancestor directory), fails
`should_exclude_path`. -/
theorem C4_excluded_dir_has_no_entries (cfg : Config) (rootSegs : List String)
    (d : FSDir) (e : List String × List Char)
    (h : e ∈ (aggregate_hidden_files rootSegs cfg (RootFS.dir d)).state.entries)
    (p : List String) (hp : p <+: rootSegs ++ e.1) :
    should_exclude_path p cfg.excludePatterns = false := by
  obtain ⟨rel, f, he, hproc⟩ := mem_scan_entries cfg rootSegs d e h
  have hfull : should_exclude_path (rootSegs ++ rel ++ [f.name])
      cfg.excludePatterns = false := processed_excluded_false hproc
  have hpath : rootSegs ++ e.1 = rootSegs ++ rel ++ [f.name] := by
    rw [he, List.append_assoc]
  exact should_exclude_path_mono (hpath ▸ hp) hfull

/-- Witness for C4 at a concrete scan: `.env` is recorded at the root of
`proj`, and the root path itself (an ancestor prefix) is not excluded. -/
theorem C4_witness :
    (([".env"], ['a', '\n', 'b']) ∈
      (aggregate_hidden_files ["proj"] defaultCfg (RootFS.dir fsEnvOnly)).state.entries) ∧
    should_exclude_path ["proj"] defaultCfg.excludePatterns = false :=
  ⟨by decide,
    C4_excluded_dir_has_no_entries defaultCfg ["proj"] fsEnvOnly
      ([".env"], ['a', '\n', 'b']) (by decide) ["proj"] (by decide)⟩

/-- The five gates exactly as the claim words them, in claimed order with
short-circuit: (a) exclude, (b) filter mode (as one gate), (c) relevance,
(d) size, (e) binary. -/
def gatesSpecC5 (cfg : Config) (file_path : List String) (f : FSFile) : FileOutcome :=
  if should_exclude_path file_path cfg.excludePatterns then .excluded
  else if ((cfg.fileFilter == "dotfiles") && !is_hidden_file_or_dir file_path) ||
      ((cfg.fileFilter == "config") && !should_include_file f.name configPatterns) then
    .filteredOut
  else if !(should_include_file f.name include_files || is_hidden_file_or_dir file_path) then
    .notRelevant
  else if f.content.length > cfg.maxFileSize then .skippedLarge
  else if is_binary_file f then .skippedBinary
  else .processed

/-- Two consecutive short-circuit checks with the same rejection result are
one check on the disjunction of their conditions. -/
theorem ite_or_shape {α : Type} (A B : Bool) (x y : α) :
    (if A then x else if B then x else y) = (if A || B then x else y) := by
  cases A <;> cases B <;> simp

/-- C5: the per-file decision of the content-collecting walk applies the five
gates in the claimed order, short-circuiting on the first rejection, and a
file rejected by any gate is neither read nor recorded (its step leaves the
scan state unchanged). -/
theorem C5_gate_order (cfg : Config) (rootSegs rel : List String) (f : FSFile)
    (st : ScanState) :
    processFile cfg (rootSegs ++ rel ++ [f.name]) f =
      gatesSpecC5 cfg (rootSegs ++ rel ++ [f.name]) f ∧
    (processFile cfg (rootSegs ++ rel ++ [f.name]) f ≠ FileOutcome.processed →
      stepFile cfg rootSegs rel f st = st) := by
  constructor
  · unfold processFile gatesSpecC5
    simp only [ite_or_shape]
    cases h6 : is_binary_file f with
    | true => simp [h6]
    | false => simp [h6, is_binary_file_eq_false_readable h6]
  · intro hne
    unfold stepFile
    cases hpf : processFile cfg (rootSegs ++ rel ++ [f.name]) f
    case processed => exact absurd hpf hne
    case errorRead => exact absurd hpf (processFile_ne_errorRead cfg _ f)
    all_goals rfl

/-- Witness for C5 at a concrete rejected file: a plain non-hidden,
non-matching file agrees with the spec-side gate chain and leaves the state
unchanged. -/
theorem C5_witness :
    processFile defaultCfg (["proj"] ++ [] ++ ["notes.txt"])
        ⟨"notes.txt", [97], ['a'], true⟩ =
      gatesSpecC5 defaultCfg (["proj"] ++ [] ++ ["notes.txt"])
        ⟨"notes.txt", [97], ['a'], true⟩ ∧
    stepFile defaultCfg ["proj"] [] ⟨"notes.txt", [97], ['a'], true⟩ emptyState =
      emptyState :=
  ⟨(C5_gate_order defaultCfg ["proj"] [] ⟨"notes.txt", [97], ['a'], true⟩ emptyState).1,
    (C5_gate_order defaultCfg ["proj"] [] ⟨"notes.txt", [97], ['a'], true⟩ emptyState).2
      (by decide)⟩

/-- C6: with filter mode `dotfiles` every recorded entry's full path is
hidden (some segment starts with a dot); with filter mode `config` every
recorded entry's filename matches the fixed config-pattern set. -/
theorem C6_filter_modes (cfg : Config) (rootSegs : List String) (d : FSDir)
    (e : List String × List Char)
    (h : e ∈ (aggregate_hidden_files rootSegs cfg (RootFS.dir d)).state.entries) :
    (cfg.fileFilter = "dotfiles" → is_hidden_file_or_dir (rootSegs ++ e.1) = true) ∧
    (cfg.fileFilter = "config" →
      ∃ n, e.1.getLast? = some n ∧ should_include_file n configPatterns = true) := by
  obtain ⟨rel, f, he, hproc⟩ := mem_scan_entries cfg rootSegs d e h
  constructor
  · intro hf
    have hh := processed_dotfiles_hidden hproc hf
    rw [he]
    rw [← List.append_assoc]
    exact hh
  · intro hf
    refine ⟨f.name, ?_, processed_config_match hproc hf⟩
    rw [he]
    exact List.getLast?_concat rel

/-- Scan configuration restricted to dotfiles. -/
def dotfilesCfg : Config := ⟨DEFAULT_EXCLUDE_PATTERNS, false, "txt", MAX_FILE_SIZE, "dotfiles"⟩

/-- Witness for C6 at a concrete dotfiles-mode scan: `.env` is recorded and
its full path is hidden. -/
theorem C6_witness :
    (([".env"], ['a', '\n', 'b']) ∈
      (aggregate_hidden_files ["proj"] dotfilesCfg (RootFS.dir fsEnvOnly)).state.entries) ∧
    is_hidden_file_or_dir (["proj"] ++ ([".env"], ['a', '\n', 'b']).1) = true :=
  ⟨by decide,
    (C6_filter_modes dotfilesCfg ["proj"] fsEnvOnly ([".env"], ['a', '\n', 'b'])
      (by decide)).1 rfl⟩

/-- The three matching rules of the claim for one pattern, tried in order
with the first match winning: (a) case-insensitive exact equality; (b) for a
pattern starting `*.`, case-insensitive suffix match on the text after the
`*`; (c) for a pattern ending `/`, case-insensitive prefix match against the
pattern without the trailing slash. -/
def matchesIncludeRuleSpec (filename pat : String) : Bool :=
  if pyLower filename.data == pyLower pat.data then true
  else if List.isPrefixOf ['*', '.'] pat.data &&
      List.isSuffixOf (pyLower (pat.data.drop 1)) (pyLower filename.data) then true
  else if List.isSuffixOf ['/'] pat.data &&
      List.isPrefixOf (pyLower pat.data.dropLast) (pyLower filename.data) then true
  else false

/-- C7: `should_include_file` matches the filename against each pattern by
exactly the three claimed rules, first match winning. -/
theorem C7_include_file_rules (filename : String) (pats : List String) :
    should_include_file filename pats = pats.any (matchesIncludeRuleSpec filename) := by
  induction pats with
  | nil => rfl
  | cons p ps ih =>
    show (_ || should_include_file filename ps) = (_ || ps.any (matchesIncludeRuleSpec filename))
    rw [ih]
    unfold matchesIncludeRuleSpec
    cases h1 : pyLower filename.data == pyLower p.data <;>
      cases h2 : List.isPrefixOf ['*', '.'] p.data &&
        List.isSuffixOf (pyLower (p.data.drop 1)) (pyLower filename.data) <;>
      cases h3 : List.isSuffixOf ['/'] p.data &&
        List.isPrefixOf (pyLower p.data.dropLast) (pyLower filename.data) <;>
      simp only [h1, h2, h3, eq_self_iff_true, Bool.false_eq_true, if_true, if_false,
        Bool.false_or, Bool.true_or, Bool.or_false, Bool.or_true]

/-- C8: for a file on which the exclude, filter-mode, relevance and binary
gates pass, a size of exactly the configured maximum is accepted (the file is
processed) while one byte more is rejected by the size gate, with the
dedicated `skippedLarge` outcome (a skip report, not an error). -/
theorem C8_size_gate_boundary (cfg : Config) (fp : List String) (f : FSFile)
    (h1 : should_exclude_path fp cfg.excludePatterns = false)
    (h2 : ((cfg.fileFilter == "dotfiles") && !is_hidden_file_or_dir fp) = false)
    (h3 : ((cfg.fileFilter == "config") && !should_include_file f.name configPatterns) = false)
    (h4 : (should_include_file f.name include_files || is_hidden_file_or_dir fp) = true)
    (h5 : is_binary_file f = false) :
    (f.content.length = cfg.maxFileSize → processFile cfg fp f = FileOutcome.processed) ∧
    (f.content.length = cfg.maxFileSize + 1 →
      processFile cfg fp f = FileOutcome.skippedLarge) := by
  constructor <;> intro hsz <;>
    simp [processFile, h1, h2, h3, h4, h5, hsz,
      is_binary_file_eq_false_readable h5]

/-- Scan configuration with a 3-byte size limit. -/
def smallCfg : Config := ⟨DEFAULT_EXCLUDE_PATTERNS, false, "txt", 3, "all"⟩

/-- A hidden text file of four bytes. -/
def envFile4 : FSFile := ⟨".env", [97, 10, 98, 99], ['a', '\n', 'b', 'c'], true⟩

/-- Witness for C8 with limit 3: the 3-byte `.env` is processed, the 4-byte
one is skipped as large. -/
theorem C8_witness :
    processFile smallCfg ["proj", ".env"] envFile = FileOutcome.processed ∧
    processFile smallCfg ["proj", ".env"] envFile4 = FileOutcome.skippedLarge :=
  ⟨(C8_size_gate_boundary smallCfg ["proj", ".env"] envFile
      (by decide) (by decide) (by decide) (by decide) (by decide)).1 (by decide),
   (C8_size_gate_boundary smallCfg ["proj", ".env"] envFile4
      (by decide) (by decide) (by decide) (by decide) (by decide)).2 (by decide)⟩

/-- C9: when the root path is missing or not a directory, the scan reports
the condition, returns failure, performs no traversal (the state is the
initial one, with no entries and zero counters) and writes no artifact. -/
theorem C9_invalid_root_aborts (rootSegs : List String) (cfg : Config) :
    (aggregate_hidden_files rootSegs cfg RootFS.missing).success = false ∧
    (aggregate_hidden_files rootSegs cfg RootFS.missing).reportedNotFound = true ∧
    (aggregate_hidden_files rootSegs cfg RootFS.missing).output = none ∧
    (aggregate_hidden_files rootSegs cfg RootFS.missing).state = emptyState :=
  ⟨rfl, rfl, rfl, rfl⟩

/-- C10: a file whose open raises is classified binary by the sampling
routine; if such a file passed the exclude, filter-mode, relevance and size
gates, its outcome is exactly `skippedBinary` — it is omitted from the scan
state (no recorded entry, no counter update) and in particular it is never
recorded as a per-file error placeholder. -/
theorem C10_unreadable_is_skipped_binary (cfg : Config) (rootSegs rel : List String)
    (f : FSFile) (hr : f.readable = false) :
    is_binary_file f = true ∧
    ((should_exclude_path (rootSegs ++ rel ++ [f.name]) cfg.excludePatterns = false) →
      (((cfg.fileFilter == "dotfiles") &&
          !is_hidden_file_or_dir (rootSegs ++ rel ++ [f.name])) = false) →
      (((cfg.fileFilter == "config") &&
          !should_include_file f.name configPatterns) = false) →
      ((should_include_file f.name include_files ||
          is_hidden_file_or_dir (rootSegs ++ rel ++ [f.name])) = true) →
      ¬(f.content.length > cfg.maxFileSize) →
      ∀ st : ScanState,
        processFile cfg (rootSegs ++ rel ++ [f.name]) f = FileOutcome.skippedBinary ∧
        stepFile cfg rootSegs rel f st = st) := by
  have hbin : is_binary_file f = true := by simp [is_binary_file, hr]
  refine ⟨hbin, fun h1 h2 h3 h4 h5 st => ?_⟩
  rw [List.append_assoc] at h1 h2 h4
  have hpf : processFile cfg (rootSegs ++ rel ++ [f.name]) f = FileOutcome.skippedBinary := by
    simp [processFile, h1, h2, h3, h4, h5, hbin]
  refine ⟨hpf, ?_⟩
  unfold stepFile
  rw [hpf]

/-- A hidden file whose open raises (e.g. permission error). -/
def lockedFile : FSFile := ⟨".env", [], [], false⟩

/-- Witness for C10: the unreadable `.env` is classified binary, gets the
`skippedBinary` outcome and leaves the state unchanged. -/
theorem C10_witness :
    is_binary_file lockedFile = true ∧
    processFile defaultCfg (["proj"] ++ [] ++ [".env"]) lockedFile =
      FileOutcome.skippedBinary ∧
    stepFile defaultCfg ["proj"] [] lockedFile emptyState = emptyState :=
  ⟨(C10_unreadable_is_skipped_binary defaultCfg ["proj"] [] lockedFile rfl).1,
   ((C10_unreadable_is_skipped_binary defaultCfg ["proj"] [] lockedFile rfl).2
      (by decide) (by decide) (by decide) (by decide) (by decide) emptyState).1,
   ((C10_unreadable_is_skipped_binary defaultCfg ["proj"] [] lockedFile rfl).2
      (by decide) (by decide) (by decide) (by decide) (by decide) emptyState).2⟩

/-- A root listing containing the directory `.git` with the single file
`.env` inside it. -/
def fsGitEnv : FSDir := .dir ".git" (.file ⟨".env", [97], ['a'], true⟩ .nil) .nil

/-- C1 (refuted on the code): on a root `proj` containing `.git/.env` with
the default configuration, the tree renderer — which never consults the
exclude patterns — renders the entry `.git/.env`, while the aggregator's
content-collecting walk prunes `.git` via `should_exclude_path` and records
nothing at all, so the two walks do not apply the same predicates. -/
theorem C1_tree_aggregator_diverge :
    ([".git", ".env"] ∈ generate_hidden_directory_tree ["proj"] fsGitEnv) ∧
    (aggregate_hidden_files ["proj"] defaultCfg (RootFS.dir fsGitEnv)).state.entries =
      [] :=
  ⟨by decide, by decide⟩

/-- A file whose first sampled byte is an actual NUL followed by nine `a`s. -/
def nulSampleFile : FSFile := ⟨"blob", [0, 97, 97, 97, 97, 97, 97, 97, 97, 97], [], true⟩

/-- C2 counterexample: a readable file whose sample contains a NUL byte is
nevertheless classified as not binary, because line 23 of
`src/aggregator.py` searches for the four characters `\x00` (mis-escaped
literal `b'\\x00'`), not for a NUL byte, and 90% of the sample is printable. -/
theorem C2_counterexample :
    (0 ∈ nulSampleFile.content.take 1024) ∧ is_binary_file nulSampleFile = false :=
  ⟨by decide, by decide⟩

/-- The printable-byte predicate the code actually uses, written out: bell,
backspace, tab, newline, form feed, carriage return, escape, and the bytes
0x20–0xFF except 0x7F. -/
def amendedPrintable (b : Nat) : Bool :=
  decide (b = 7 ∨ b = 8 ∨ b = 9 ∨ b = 10 ∨ b = 12 ∨ b = 13 ∨ b = 27 ∨
    (32 ≤ b ∧ b ≤ 255 ∧ b ≠ 127))

/-- Membership in the code's `text_chars` byte set coincides with the
written-out printable predicate. -/
theorem text_chars_contains_eq (b : Nat) :
    text_chars.contains b = amendedPrintable b := by
  by_cases hb : b < 256
  · exact (by decide : ∀ x, x < 256 → text_chars.contains x = amendedPrintable x) b hb
  · have h1 : text_chars.contains b = false := by
      cases hc : text_chars.contains b with
      | false => rfl
      | true =>
        have hm : b ∈ text_chars := by simpa using hc
        exfalso
        simp [text_chars, List.mem_append, List.mem_filter, List.mem_range] at hm
        omega
    have h2 : amendedPrintable b = false := by
      simp only [amendedPrintable, decide_eq_false_iff_not]
      omega
    rw [h1, h2]

/-- The amended form of the binary-classification claim, following the code:
read at most the first 1024 bytes; a file whose open/read raises is binary;
otherwise it is binary exactly when the four-character sequence `\x00`
(backslash, `x`, `0`, `0`) occurs in the sample, or the sample is non-empty
and fewer than 70% of its bytes are printable in the sense of
`amendedPrintable`. -/
def is_binary_file_amended_spec (f : FSFile) : Bool :=
  if f.readable = false then true
  else
    let sample := f.content.take 1024
    containsSeq backslashX00 sample ||
      (!sample.isEmpty && decide (10 * sample.countP amendedPrintable < 7 * sample.length))

/-- C2 amended: the binary classification agrees everywhere with the amended
description (mis-escaped NUL probe; printable set including bell and
backspace; 70% threshold; empty sample not binary; unreadable file binary). -/
theorem C2_binary_classification_amended (f : FSFile) :
    is_binary_file f = is_binary_file_amended_spec f := by
  unfold is_binary_file is_binary_file_amended_spec
  cases hr : f.readable with
  | false => simp [hr]
  | true =>
    have hcnt : (f.content.take 1024).countP (fun b => text_chars.contains b) =
        (f.content.take 1024).countP amendedPrintable :=
      List.countP_congr fun b _ => by rw [text_chars_contains_eq]
    simp only [hr, Bool.not_true, Bool.false_eq_true, Bool.true_eq_false, if_false]
    rw [hcnt]
    cases hcs : containsSeq backslashX00 (f.content.take 1024) <;>
      cases hemp : (f.content.take 1024).isEmpty <;>
      simp [hcs, hemp]

/-- Default configuration with the dry-run flag set. -/
def dryCfg : Config := ⟨DEFAULT_EXCLUDE_PATTERNS, true, "txt", MAX_FILE_SIZE, "all"⟩

/-- C3 (refuted on the code): on a root holding the single hidden file
`.env` with content `a`-newline-`b`, the dry run and the normal run make the
same inclusion decision (both count one file) and the dry run writes no
artifact, but the aggregate counters differ: the dry run counts 2 lines by
iterating the file, while the normal run reports 1 because line 155 of
`src/aggregator.py` counts occurrences of the literal two-character sequence
backslash-`n` (mis-escaped `'\\n'`) instead of newline characters. -/
theorem C3_dry_run_counters_diverge :
    (aggregate_hidden_files ["proj"] dryCfg (RootFS.dir fsEnvOnly)).state.fileCount =
      (aggregate_hidden_files ["proj"] defaultCfg (RootFS.dir fsEnvOnly)).state.fileCount ∧
    (aggregate_hidden_files ["proj"] dryCfg (RootFS.dir fsEnvOnly)).output = none ∧
    (aggregate_hidden_files ["proj"] dryCfg (RootFS.dir fsEnvOnly)).state.totalLines = 2 ∧
    (aggregate_hidden_files ["proj"] defaultCfg (RootFS.dir fsEnvOnly)).state.totalLines =
      1 :=
  ⟨by decide, by decide, by decide, by decide⟩

end HiddenFileReader
